import Mathlib

/-!
Shallow embedding of the processing-job subsystem of the repository
(`src/server/routes/jobs.ts`, `src/server/lib/validation.ts`,
`src/server/errors/index.ts`).

Conventions of the embedding:
* Timestamps are naturals (milliseconds since epoch, the value of
  `Date.now()` / `Date#getTime()`); the progress/ETA arithmetic that the
  source performs on JavaScript numbers is modelled over exact rationals,
  with `Math.round` modelled as `fun x => Int.floor (x + 1/2)`.
* A route handler that can `throw` is an `Except ApiError _` function;
  a thrown error occurs before any database write of that handler, so the
  error branch carries no state and `execOp` (the surrounding Express
  semantics) leaves the store untouched on error.
* Database rows are structures; `db.update(...).set({...})` is a record
  update; `db.insert` appends to a list.  Row ids assigned by the database
  for log rows are irrelevant to the properties below and are set to 0.
-/

/-- Job status enum (`processing_jobs.status`). -/
inductive JobStatus
  | pending
  | processing
  | completed
  | failed
  | cancelled
deriving DecidableEq, Repr

/-- A `processing_jobs` row, with the columns the job routes read or write. -/
structure Job where
  id : Nat
  organisationId : Nat
  projectId : Nat
  dataSourceId : Nat
  schemaMappingId : Nat
  status : JobStatus
  outputFormat : String
  outputName : String
  inputRecordCount : Nat
  outputRecordCount : Option Nat
  piiDetectedCount : Option Nat
  progress : Nat
  currentStage : Option String
  errorMessage : Option String
  startedAt : Option Nat
  completedAt : Option Nat
  createdAt : Nat
  updatedAt : Nat
deriving DecidableEq, Repr

/-- A `job_logs` row. -/
structure JobLog where
  id : Nat
  jobId : Nat
  level : String
  message : String
  details : Option String
  createdAt : Nat
deriving DecidableEq, Repr

/-- The application error classes of `src/server/errors/index.ts` that the
job routes throw. -/
inductive ApiError
  | notFound (message : String)
  | forbidden (message : String)
  | badRequest (message : String)
deriving DecidableEq, Repr

/-- A `data_sources` row as seen (joined) by the job-creation handler. -/
structure DataSource where
  id : Nat
  name : String
  status : String
  recordCount : Option Nat
deriving DecidableEq, Repr

/-- A `schema_mappings` row joined with its data source
(`with: \x7b dataSource: true \x7d`). -/
structure SchemaMapping where
  id : Nat
  projectId : Nat
  isActive : Nat
  dataSource : Option DataSource
deriving DecidableEq, Repr

/-- The store state the job operations touch: the job row under
consideration and the `job_logs` table. -/
structure St where
  job : Job
  logs : List JobLog
deriving DecidableEq, Repr

/-- Express semantics around a handler: a thrown error aborts the request
before any database write, leaving the store unchanged. -/
def execOp (st : St) (r : Except ApiError St) : St :=
  match r with
  | .ok st' => st'
  | .error _ => st

/-- The row inserted by `POST /projects/:projectId/jobs`
(`db.insert(processingJobs).values({...})`, jobs.ts lines 163-176).
`outputName || dataSource.name + "-output"` and
`dataSource.recordCount || 0` follow JavaScript falsiness: an absent or
empty name, and an absent or zero record count, fall back. -/
def newJob (jobId organisationId projectId : Nat) (mapping : SchemaMapping)
    (dataSource : DataSource) (outputFormat : String)
    (outputName : Option String) (now : Nat) : Job :=
  { id := jobId
    organisationId := organisationId
    projectId := projectId
    dataSourceId := dataSource.id
    schemaMappingId := mapping.id
    status := .pending
    outputFormat := outputFormat
    outputName :=
      match outputName with
      | some s => if s = "" then dataSource.name ++ "-output" else s
      | none => dataSource.name ++ "-output"
    inputRecordCount := (dataSource.recordCount).getD 0
    outputRecordCount := none
    piiDetectedCount := none
    progress := 0
    currentStage := none
    errorMessage := none
    startedAt := none
    completedAt := none
    createdAt := now
    updatedAt := now }

/-- The "simulate immediate processing start" update shared by create and
retry (`set(\x7b status: 'processing', startedAt: new Date(), currentStage:
'initializing' \x7d)`, jobs.ts lines 187-190 and 450-453). -/
def startJob (now : Nat) (j : Job) : Job :=
  { j with status := .processing, startedAt := some now,
           currentStage := some "initializing" }

/-- The update performed by `POST /jobs/:jobId/cancel`
(jobs.ts lines 380-387). -/
def cancelUpdate (now : Nat) (j : Job) : Job :=
  { j with status := .cancelled, completedAt := some now, updatedAt := now }

/-- The reset update performed by `POST /jobs/:jobId/retry`
(jobs.ts lines 428-441). -/
def retryReset (now : Nat) (j : Job) : Job :=
  { j with status := .pending, progress := 0, currentStage := none,
           errorMessage := none, outputRecordCount := none,
           piiDetectedCount := none, startedAt := none, completedAt := none,
           updatedAt := now }

/-- A log row as inserted by the job routes (id is database-assigned and
not relevant here; `details` is never supplied by these routes). -/
def mkLog (jobId : Nat) (level message : String) (now : Nat) : JobLog :=
  { id := 0, jobId := jobId, level := level, message := message,
    details := none, createdAt := now }

/-- Handler for `POST /jobs/:jobId/cancel` (jobs.ts lines 357-397), after
the job has been looked up: forbidden check, status gate, cancelling
update, log insert. -/
def cancelJob (organisationId now : Nat) (st : St) : Except ApiError St :=
  if st.job.organisationId ≠ organisationId then
    .error (.forbidden ("Access denied to this job"))
  else if st.job.status = .pending ∨ st.job.status = .processing then
    .ok { job := cancelUpdate now st.job
          logs := st.logs ++ [mkLog st.job.id "info" "Job cancelled by user" now] }
  else
    .error (.badRequest ("Only pending or processing jobs can be cancelled"))

/-- Handler for `POST /jobs/:jobId/retry` (jobs.ts lines 403-457), after
the job has been looked up: forbidden check, status gate, reset update,
log insert, processing start.  `tReset` and `tStart` are the two
`new Date()` calls. -/
def retryJob (organisationId tReset tStart : Nat) (st : St) :
    Except ApiError St :=
  if st.job.organisationId ≠ organisationId then
    .error (.forbidden ("Access denied to this job"))
  else if st.job.status ≠ .failed then
    .error (.badRequest ("Only failed jobs can be retried"))
  else
    .ok { job := startJob tStart (retryReset tReset st.job)
          logs := st.logs ++ [mkLog st.job.id "info" "Job queued for retry" tReset] }

/-- Predicate of the schema-mapping `findFirst`: same id, same project. -/
def mappingMatch (schemaMappingId projectId : Nat) (m : SchemaMapping) : Bool :=
  m.id = schemaMappingId ∧ m.projectId = projectId

/-- Handler for `POST /projects/:projectId/jobs` (jobs.ts lines 128-207),
after project access has been verified: schema-mapping lookup
(`findFirst` on id and projectId), activity and data-source gates, job
insert, log insert, immediate processing start.  The HTTP response body
echoes the inserted row with the literal status `'processing'`, progress 0
and stage `'initializing'` (lines 192-205), i.e. exactly the fields of
`startJob tStart inserted` that this function returns. -/
def createJob (organisationId projectId schemaMappingId : Nat)
    (outputFormat : String) (outputName : Option String)
    (mappings : List SchemaMapping) (jobId : Nat) (tCreate tStart : Nat)
    (logs : List JobLog) : Except ApiError St :=
  match mappings.find? (mappingMatch schemaMappingId projectId) with
  | none => .error (.notFound ("Schema mapping not found in this project"))
  | some mapping =>
    if mapping.isActive ≠ 1 then
      .error (.badRequest ("Schema mapping is not active"))
    else
      match mapping.dataSource with
      | none => .error (.badRequest ("Data source is not ready for processing"))
      | some dataSource =>
        if dataSource.status ≠ "ready" then
          .error (.badRequest ("Data source is not ready for processing"))
        else
          let inserted := newJob jobId organisationId projectId mapping
            dataSource outputFormat outputName tCreate
          .ok { job := startJob tStart inserted
                logs := logs ++
                  [mkLog inserted.id "info" "Job created and queued for processing" tCreate] }

/-- JavaScript `Math.round`: round half toward positive infinity. -/
def jsRound (x : ℚ) : ℤ := Int.floor (x + 1 / 2)

/-- The `estimatedTimeRemaining` computation of `GET /jobs/:jobId/progress`
(jobs.ts lines 279-284): null unless the job is `processing` with positive
progress and a start time; otherwise
`max(0, round(((elapsed / progress) * 100 - elapsed) / 1000))`. -/
def estimatedTimeRemaining (now : Nat) (j : Job) : Option ℤ :=
  match j.startedAt with
  | none => none
  | some s =>
    if j.status = .processing ∧ 0 < j.progress then
      let elapsed : ℚ := (now : ℚ) - (s : ℚ)
      let estimatedTotal : ℚ := elapsed / (j.progress : ℚ) * 100
      some (max 0 (jsRound ((estimatedTotal - elapsed) / 1000)))
    else none

/-- The progress payload of `GET /jobs/:jobId/progress`
(jobs.ts lines 286-299). -/
structure ProgressSnapshot where
  jobId : Nat
  status : JobStatus
  currentStage : Option String
  overallProgress : Nat
  processedRecords : ℤ
  totalRecords : Nat
  estimatedTimeRemaining : Option ℤ
  piiDetectedCount : Option Nat
deriving DecidableEq, Repr

/-- Response body of `GET /jobs/:jobId/progress` (jobs.ts lines 286-299);
`processedRecords = Math.round(inputRecordCount * progress / 100)`. -/
def getProgress (now : Nat) (j : Job) : ProgressSnapshot :=
  { jobId := j.id
    status := j.status
    currentStage := j.currentStage
    overallProgress := j.progress
    processedRecords :=
      jsRound (((j.inputRecordCount * j.progress : Nat) : ℚ) / 100)
    totalRecords := j.inputRecordCount
    estimatedTimeRemaining := estimatedTimeRemaining now j
    piiDetectedCount := j.piiDetectedCount }

/-- All fields of a progress snapshot except `estimatedTimeRemaining`. -/
def snapshotSansETA (s : ProgressSnapshot) :
    Nat × JobStatus × Option String × Nat × ℤ × Nat × Option Nat :=
  (s.jobId, s.status, s.currentStage, s.overallProgress, s.processedRecords,
   s.totalRecords, s.piiDetectedCount)

/-- The job rows that can exist in the database, at the granularity of the
individual writes the handlers perform.  A row appears by the create
handler's insert (`newJob`); the shared auto-start update (`startJob`) is
applied by create and retry, in both cases to the `pending` row the same
handler just wrote; the cancel update requires the status gate of the
cancel handler; the retry reset requires the status gate of the retry
handler.  Read-only endpoints (get, progress, logs) perform no writes. -/
inductive ReachableJob : Job → Prop
  | created (jobId org proj : Nat) (m : SchemaMapping) (ds : DataSource)
      (fmt : String) (name : Option String) (t : Nat) :
      ReachableJob (newJob jobId org proj m ds fmt name t)
  | autoStarted (t : Nat) {j : Job} : ReachableJob j → j.status = .pending →
      ReachableJob (startJob t j)
  | cancelStep (t : Nat) {j : Job} : ReachableJob j →
      (j.status = .pending ∨ j.status = .processing) →
      ReachableJob (cancelUpdate t j)
  | retryStep (t : Nat) {j : Job} : ReachableJob j → j.status = .failed →
      ReachableJob (retryReset t j)

/-- JavaScript `parseInt(s, 10)` restricted to its leading-digits
behaviour: longest digit prefix, `NaN` (here `none`) when there is none. -/
def parseDigits (cs : List Char) : Option Nat :=
  let ds := cs.takeWhile Char.isDigit
  if ds.isEmpty then none
  else some (ds.foldl (fun acc c => acc * 10 + (c.toNat - 48)) 0)

/-- JavaScript `parseInt(value, 10)`: skip leading whitespace, optional
sign, longest digit prefix; `NaN` is `none`. -/
def jsParseInt (s : String) : Option Int :=
  match s.toList.dropWhile Char.isWhitespace with
  | '-' :: rest => (parseDigits rest).map (fun n => -(n : Int))
  | '+' :: rest => (parseDigits rest).map (fun n => (n : Int))
  | cs => (parseDigits cs).map (fun n => (n : Int))

/-- Function `parseQueryInt` of `src/server/lib/validation.ts` (the file of
`parsePaginationParams`): default when absent, BadRequest when unparsable
or outside the given bounds. -/
def parseQueryInt (value : Option String) (paramName : String)
    (defaultValue : Int) (lo hi : Option Int) : Except ApiError Int :=
  match value with
  | none => .ok defaultValue
  | some s =>
    match jsParseInt s with
    | none =>
      .error (.badRequest ("Invalid " ++ paramName ++ ": must be an integer"))
    | some parsed =>
      match lo with
      | some mn =>
        if parsed < mn then
          .error (.badRequest
            ("Invalid " ++ paramName ++ ": must be at least " ++ toString mn))
        else
          match hi with
          | some mx =>
            if mx < parsed then
              .error (.badRequest
                ("Invalid " ++ paramName ++ ": must be at most " ++ toString mx))
            else .ok parsed
          | none => .ok parsed
      | none =>
        match hi with
        | some mx =>
          if mx < parsed then
            .error (.badRequest
              ("Invalid " ++ paramName ++ ": must be at most " ++ toString mx))
          else .ok parsed
        | none => .ok parsed

/-- Function `parsePaginationParams`: `page` defaults to 1 (min 1),
`limit` comes from the `page_size` query parameter (default 20, bounds
1..100), `offset = (page - 1) * limit`. -/
def parsePaginationParams (page? pageSize? : Option String) :
    Except ApiError (Int × Int × Int) := do
  let page ← parseQueryInt page? "page" 1 (some 1) none
  let limit ← parseQueryInt pageSize? "page_size" 20 (some 1) (some 100)
  .ok (page, limit, (page - 1) * limit)

/-- Descending order on `createdAt` used by `orderBy: desc(jobLogs.createdAt)`. -/
def logDesc (a b : JobLog) : Prop := b.createdAt ≤ a.createdAt

instance : DecidableRel logDesc := fun a b => Nat.decLe b.createdAt a.createdAt

instance : IsTotal JobLog logDesc :=
  ⟨fun a b => le_total b.createdAt a.createdAt⟩

instance : IsTrans JobLog logDesc :=
  ⟨fun _ _ _ hab hbc => le_trans hbc hab⟩

/-- The database's `ORDER BY created_at DESC`, modelled as a sort. -/
def sortLogsDesc (logs : List JobLog) : List JobLog :=
  logs.insertionSort logDesc

/-- Handler for `GET /api/jobs/:jobId/logs` (jobs.ts lines 307-351):
pagination parsing, job lookup, forbidden check, then the job's log rows
ordered by `createdAt` descending, offset/limit applied.  The per-row
formatting (id/level/message/details/timestamp projection) does not
reorder or drop rows and is omitted. -/
def getLogs (organisationId jobId : Nat) (jobs : List Job)
    (tbl : List JobLog) (page? pageSize? : Option String) :
    Except ApiError (List JobLog) := do
  let (_, limit, offset) ← parsePaginationParams page? pageSize?
  match jobs.find? (fun x => x.id == jobId) with
  | none => .error (.notFound ("Job not found"))
  | some job =>
    if job.organisationId ≠ organisationId then
      .error (.forbidden ("Access denied to this job"))
    else
      .ok (((sortLogsDesc (tbl.filter (fun l => l.jobId = jobId))).drop
        offset.toNat).take limit.toNat)

/-- A concrete job row as produced by create (status `processing`), used
as a base for concrete scenarios. -/
def jobProcessing : Job :=
  { id := 1, organisationId := 7, projectId := 3, dataSourceId := 4,
    schemaMappingId := 5, status := .processing, outputFormat := "json",
    outputName := "out", inputRecordCount := 100, outputRecordCount := none,
    piiDetectedCount := none, progress := 0,
    currentStage := some "initializing", errorMessage := none,
    startedAt := some 10, completedAt := none, createdAt := 10,
    updatedAt := 10 }

/-- A concrete job row in terminal status `completed`. -/
def jobCompleted : Job :=
  { jobProcessing with
    status := .completed
    progress := 100
    completedAt := some 20
    outputRecordCount := some 100
    currentStage := none }

/-- A concrete job row in status `failed`. -/
def jobFailed : Job :=
  { jobProcessing with
    status := .failed
    completedAt := some 20
    errorMessage := some "stage X crashed"
    progress := 40 }

/-- Claim C1: cancel(jobId) succeeds exactly from status `pending` or
`processing`, in which case it sets status to `cancelled`, sets
`completedAt`, and appends an info log entry; from any other status it
fails with BadRequest ("Only pending or processing jobs can be cancelled")
and, the error being thrown before any write, leaves the store
unchanged. -/
theorem cancel_status_gate (org now : Nat) (st : St)
    (horg : st.job.organisationId = org) :
    ((st.job.status = .pending ∨ st.job.status = .processing) →
      cancelJob org now st = .ok
        { job := { st.job with
                   status := .cancelled
                   completedAt := some now
                   updatedAt := now }
          logs := st.logs ++
            [mkLog st.job.id "info" "Job cancelled by user" now] }) ∧
    (st.job.status ≠ .pending ∧ st.job.status ≠ .processing →
      cancelJob org now st =
        .error (.badRequest ("Only pending or processing jobs can be cancelled")) ∧
      execOp st (cancelJob org now st) = st) := by
  constructor
  · intro h
    simp [cancelJob, horg, h, cancelUpdate]
  · rintro ⟨h1, h2⟩
    have hnot : ¬(st.job.status = .pending ∨ st.job.status = .processing) := by
      tauto
    simp [cancelJob, horg, hnot, execOp]

/-- Witness for C1: cancelling the concrete `completed` job fails with
BadRequest and leaves the store unchanged. -/
theorem cancel_status_gate_witness :
    cancelJob 7 50 { job := jobCompleted, logs := [] } =
      .error (.badRequest ("Only pending or processing jobs can be cancelled")) ∧
    execOp { job := jobCompleted, logs := [] }
      (cancelJob 7 50 { job := jobCompleted, logs := [] }) =
      { job := jobCompleted, logs := [] } :=
  (cancel_status_gate 7 50 { job := jobCompleted, logs := [] } rfl).2
    ⟨by decide, by decide⟩

/-- Claim C2: retry(jobId) is permitted exactly from status `failed`; it
reuses the same job id, resets the run-scoped fields (the intermediate
reset row is `pending` with progress 0 and all of currentStage,
errorMessage, outputRecordCount, piiDetectedCount, startedAt, completedAt
null), then re-enters `processing`; from any other status it fails with
BadRequest and leaves the store unchanged. -/
theorem retry_status_gate (org tReset tStart : Nat) (st : St)
    (horg : st.job.organisationId = org) :
    (st.job.status = .failed →
      retryJob org tReset tStart st = .ok
        { job := { st.job with
                   status := .processing
                   progress := 0
                   currentStage := some "initializing"
                   errorMessage := none
                   outputRecordCount := none
                   piiDetectedCount := none
                   startedAt := some tStart
                   completedAt := none
                   updatedAt := tReset }
          logs := st.logs ++
            [mkLog st.job.id "info" "Job queued for retry" tReset] } ∧
      retryReset tReset st.job =
        { st.job with
          status := .pending
          progress := 0
          currentStage := none
          errorMessage := none
          outputRecordCount := none
          piiDetectedCount := none
          startedAt := none
          completedAt := none
          updatedAt := tReset } ∧
      (startJob tStart (retryReset tReset st.job)).id = st.job.id) ∧
    (st.job.status ≠ .failed →
      retryJob org tReset tStart st =
        .error (.badRequest ("Only failed jobs can be retried")) ∧
      execOp st (retryJob org tReset tStart st) = st) := by
  constructor
  · intro h
    refine ⟨?_, rfl, rfl⟩
    simp [retryJob, horg, h, retryReset, startJob]
  · intro h
    simp [retryJob, horg, h, execOp]

/-- Witness for C2: retrying the concrete `failed` job succeeds, ending
`processing` with errorMessage null and progress 0, on the same job id. -/
theorem retry_status_gate_witness :
    retryJob 7 30 31 { job := jobFailed, logs := [] } = .ok
      { job := { jobFailed with
                 status := .processing
                 progress := 0
                 currentStage := some "initializing"
                 errorMessage := none
                 outputRecordCount := none
                 piiDetectedCount := none
                 startedAt := some 31
                 completedAt := none
                 updatedAt := 30 }
        logs := [] ++ [mkLog jobFailed.id "info" "Job queued for retry" 30] } ∧
    retryReset 30 jobFailed =
      { jobFailed with
        status := .pending
        progress := 0
        currentStage := none
        errorMessage := none
        outputRecordCount := none
        piiDetectedCount := none
        startedAt := none
        completedAt := none
        updatedAt := 30 } ∧
    (startJob 31 (retryReset 30 jobFailed)).id = jobFailed.id :=
  (retry_status_gate 7 30 31 { job := jobFailed, logs := [] } rfl).1 rfl

/-- A concrete data source in status `ready`. -/
def dsReady : DataSource :=
  { id := 4, name := "src", status := "ready", recordCount := some 100 }

/-- A concrete active schema mapping whose data source is ready. -/
def mapActive : SchemaMapping :=
  { id := 5, projectId := 3, isActive := 1, dataSource := some dsReady }

/-- A concrete active schema mapping whose data source relation is
missing. -/
def mapNoSource : SchemaMapping :=
  { id := 5, projectId := 3, isActive := 1, dataSource := none }

/-- Claim C3 counterexample: with an active schema mapping whose
referenced data source is missing, create() fails with BadRequest
("Data source is not ready for processing"), not with NotFound as the
claim states. -/
theorem create_missing_source_counterexample :
    createJob 7 3 5 "json" none [mapNoSource] 1 10 11 [] =
      .error (.badRequest ("Data source is not ready for processing")) := by
  rfl

/-- Claim C3 (amended): create() fails with NotFound when the schema
mapping is missing from the caller's project; with BadRequest when the
mapping is not active, or when the referenced data source is missing or
its status is not `ready`; only when all preconditions hold is a job row
inserted. -/
theorem create_precondition_gates (org proj smId jobId t1 t2 : Nat)
    (fmt : String) (name : Option String) (mappings : List SchemaMapping)
    (logs : List JobLog) :
    (mappings.find? (mappingMatch smId proj) = none →
      createJob org proj smId fmt name mappings jobId t1 t2 logs =
        .error (.notFound ("Schema mapping not found in this project"))) ∧
    (∀ mp, mappings.find? (mappingMatch smId proj) = some mp →
      (mp.isActive ≠ 1 →
        createJob org proj smId fmt name mappings jobId t1 t2 logs =
          .error (.badRequest ("Schema mapping is not active"))) ∧
      (mp.isActive = 1 → mp.dataSource = none →
        createJob org proj smId fmt name mappings jobId t1 t2 logs =
          .error (.badRequest ("Data source is not ready for processing"))) ∧
      (∀ ds, mp.isActive = 1 → mp.dataSource = some ds → ds.status ≠ "ready" →
        createJob org proj smId fmt name mappings jobId t1 t2 logs =
          .error (.badRequest ("Data source is not ready for processing"))) ∧
      (∀ ds, mp.isActive = 1 → mp.dataSource = some ds → ds.status = "ready" →
        createJob org proj smId fmt name mappings jobId t1 t2 logs = .ok
          { job := startJob t2 (newJob jobId org proj mp ds fmt name t1)
            logs := logs ++
              [mkLog jobId "info" "Job created and queued for processing" t1] })) := by
  refine ⟨fun hnone => ?_, fun mp hmp => ⟨fun hact => ?_, fun hact hds => ?_,
    fun ds hact hds hst => ?_, fun ds hact hds hst => ?_⟩⟩
  · simp [createJob, hnone]
  · simp [createJob, hmp, hact]
  · simp [createJob, hmp, hact, hds]
  · simp [createJob, hmp, hact, hds, hst]
  · simp [createJob, hmp, hact, hds, hst, newJob]

/-- Witness for C3 (amended): the concrete active mapping with a ready
data source passes all gates and a job row is inserted. -/
theorem create_precondition_gates_witness :
    createJob 7 3 5 "json" none [mapActive] 2 10 11 [] = .ok
      { job := startJob 11 (newJob 2 7 3 mapActive dsReady "json" none 10)
        logs := [] ++
          [mkLog 2 "info" "Job created and queued for processing" 10] } :=
  ((create_precondition_gates 7 3 5 2 10 11 "json" none [mapActive] []).2
    mapActive (by decide)).2.2.2 dsReady rfl rfl rfl

/-- Claim C4 counterexample: a successful create() appends exactly one log
entry ("Job created and queued for processing"); no second "started" log
entry is written, contrary to the claim's "logs `queued` then
`started`". -/
theorem create_logs_counterexample :
    createJob 7 3 5 "json" none [mapActive] 2 10 11 [] = .ok
      { job := startJob 11 (newJob 2 7 3 mapActive dsReady "json" none 10)
        logs := [mkLog 2 "info" "Job created and queued for processing" 10] } ∧
    ¬2 ≤ [mkLog 2 "info" "Job created and queued for processing" 10].length := by
  exact ⟨rfl, by decide⟩

/-- Claim C4 (amended): on successful create(), the job is inserted with
status `pending` and progress 0, a single info log entry
"Job created and queued for processing" is appended (no separate
"started" log entry), and the job is immediately advanced to `processing`
with `startedAt` set and `currentStage` set to `initializing`, so the
returned Job reports status `processing`. -/
theorem create_success_path (org proj smId jobId t1 t2 : Nat) (fmt : String)
    (name : Option String) (mappings : List SchemaMapping)
    (logs : List JobLog) (mp : SchemaMapping) (ds : DataSource)
    (hmp : mappings.find? (mappingMatch smId proj) = some mp)
    (hact : mp.isActive = 1) (hds : mp.dataSource = some ds)
    (hst : ds.status = "ready") :
    (newJob jobId org proj mp ds fmt name t1).status = .pending ∧
    (newJob jobId org proj mp ds fmt name t1).progress = 0 ∧
    createJob org proj smId fmt name mappings jobId t1 t2 logs = .ok
      { job := startJob t2 (newJob jobId org proj mp ds fmt name t1)
        logs := logs ++
          [mkLog jobId "info" "Job created and queued for processing" t1] } ∧
    (startJob t2 (newJob jobId org proj mp ds fmt name t1)).status =
      .processing ∧
    (startJob t2 (newJob jobId org proj mp ds fmt name t1)).startedAt =
      some t2 ∧
    (startJob t2 (newJob jobId org proj mp ds fmt name t1)).currentStage =
      some "initializing" := by
  refine ⟨rfl, rfl, ?_, rfl, rfl, rfl⟩
  simp [createJob, hmp, hact, hds, hst, newJob]

/-- Witness for C4 (amended): the concrete successful create() ends with
the job `processing`, started at the given time, one log entry
appended. -/
theorem create_success_path_witness :
    (newJob 2 7 3 mapActive dsReady "json" none 10).status = .pending ∧
    (newJob 2 7 3 mapActive dsReady "json" none 10).progress = 0 ∧
    createJob 7 3 5 "json" none [mapActive] 2 10 11 [] = .ok
      { job := startJob 11 (newJob 2 7 3 mapActive dsReady "json" none 10)
        logs := [] ++
          [mkLog 2 "info" "Job created and queued for processing" 10] } ∧
    (startJob 11 (newJob 2 7 3 mapActive dsReady "json" none 10)).status =
      .processing ∧
    (startJob 11 (newJob 2 7 3 mapActive dsReady "json" none 10)).startedAt =
      some 11 ∧
    (startJob 11 (newJob 2 7 3 mapActive dsReady "json" none 10)).currentStage =
      some "initializing" :=
  create_success_path 7 3 5 2 10 11 "json" none [mapActive] [] mapActive
    dsReady (by decide) rfl rfl rfl

/-- Every reachable job in status `processing` has `startedAt` set: both
transitions into `processing` (the auto-start after create and after
retry) set it. -/
theorem reachable_processing_startedAt (j : Job) (h : ReachableJob j) :
    j.status = .processing → j.startedAt ≠ none := by
  induction h with
  | created jobId org proj m ds fmt name t => simp [newJob]
  | autoStarted t hr hp ih => simp [startJob]
  | cancelStep t hr hor ih => simp [cancelUpdate]
  | retryStep t hr hf ih => simp [retryReset]

/-- Claim C5: getProgress computes estimatedTimeRemaining as
max(0, estimatedTotal - elapsed) (in seconds, rounded) with
estimatedTotal = elapsed / (progress/100) from wall-clock time since
startedAt, and the result is null exactly when progress is 0 or the
status is not `processing`.  The hypothesis that `startedAt` is set holds
for every reachable `processing` job, since both transitions into
`processing` set `startedAt` (proved as the preceding lemma). -/
theorem eta_guard_and_formula (j : Job) (now : Nat)
    (hs : j.startedAt ≠ none) :
    (estimatedTimeRemaining now j = none ↔
      (j.progress = 0 ∨ j.status ≠ .processing)) ∧
    (∀ s : Nat, j.startedAt = some s → j.status = .processing →
      0 < j.progress →
      estimatedTimeRemaining now j = some (max 0 (jsRound
        ((((now : ℚ) - (s : ℚ)) / ((j.progress : ℚ) / 100) -
          ((now : ℚ) - (s : ℚ))) / 1000)))) := by
  obtain ⟨s, hs'⟩ := Option.ne_none_iff_exists'.mp hs
  constructor
  · simp only [estimatedTimeRemaining, hs']
    split_ifs with h
    · simp only [Option.some_ne_none, false_iff]
      push_neg
      exact ⟨Nat.pos_iff_ne_zero.mp h.2, h.1⟩
    · simp only [true_iff]
      by_cases h1 : j.status = .processing
      · have h2 : ¬0 < j.progress := fun hp => h ⟨h1, hp⟩
        exact Or.inl (by omega)
      · exact Or.inr h1
  · intro s' hs2 hst hp
    have harg : ((now : ℚ) - (s' : ℚ)) / ((j.progress : ℚ) / 100) =
        ((now : ℚ) - (s' : ℚ)) / (j.progress : ℚ) * 100 := by
      rw [div_div_eq_mul_div, mul_div_right_comm]
    simp only [estimatedTimeRemaining, hs2, if_pos (And.intro hst hp)]
    rw [harg]

/-- Witness for C5: a concrete `processing` job with progress 50 started
at time 0, polled at time 2000. -/
theorem eta_guard_and_formula_witness :
    (estimatedTimeRemaining 2000 { jobProcessing with progress := 50 } =
        none ↔
      ({ jobProcessing with progress := 50 } : Job).progress = 0 ∨
      ({ jobProcessing with progress := 50 } : Job).status ≠ .processing) ∧
    estimatedTimeRemaining 2000 { jobProcessing with progress := 50 } =
      some (max 0 (jsRound
        ((((2000 : ℚ) - ((10 : Nat) : ℚ)) /
            ((((50 : Nat) : ℚ)) / 100) -
          ((2000 : ℚ) - ((10 : Nat) : ℚ))) / 1000))) :=
  ⟨(eta_guard_and_formula { jobProcessing with progress := 50 } 2000
      (by decide)).1,
   (eta_guard_and_formula { jobProcessing with progress := 50 } 2000
      (by decide)).2 10 rfl rfl (by decide)⟩

/-- Claim C6: for every job, the progress snapshot's processedRecords
equals round(inputRecordCount * progress / 100) — in closed Nat form,
(inputRecordCount * progress + 50) / 100 — and in particular a job with
inputRecordCount 100 and progress 50 reports processedRecords 50. -/
theorem processedRecords_formula :
    (∀ (j : Job) (now : Nat),
      (getProgress now j).processedRecords =
        ((j.inputRecordCount * j.progress + 50) / 100 : Nat)) ∧
    (getProgress 0 { jobProcessing with progress := 50 }).processedRecords =
      50 := by
  have key : ∀ m : Nat, jsRound ((m : ℚ) / 100) = ((m + 50) / 100 : Nat) := by
    intro m
    have h := Rat.floor_natCast_div_natCast (m + 50) 100
    rw [jsRound, show (m : ℚ) / 100 + 1 / 2 =
      ((m + 50 : Nat) : ℚ) / ((100 : Nat) : ℚ) by push_cast; ring]
    exact_mod_cast h
  constructor
  · intro j now
    simpa [getProgress] using key (j.inputRecordCount * j.progress)
  · rw [show (getProgress 0
        { jobProcessing with progress := 50 }).processedRecords =
      jsRound (((100 * 50 : Nat) : ℚ) / 100) from rfl, key]
    norm_num

/-- Claim C7: for every job produced by the implemented operations
(create insert, auto-start, cancel, retry reset), `completedAt` is
non-null exactly when the status is terminal (completed, failed, or
cancelled). -/
theorem completedAt_iff_terminal (j : Job) (h : ReachableJob j) :
    j.completedAt ≠ none ↔
      (j.status = .completed ∨ j.status = .failed ∨ j.status = .cancelled) := by
  induction h with
  | created jobId org proj m ds fmt name t => simp [newJob]
  | autoStarted t hr hp ih =>
    rename_i jp
    have hnone : jp.completedAt = none := by
      by_contra hne
      exact absurd (ih.mp hne) (by simp [hp])
    simp [startJob, hnone]
  | cancelStep t hr hor ih => simp [cancelUpdate]
  | retryStep t hr hf ih => simp [retryReset]

/-- Witness for C7: a concrete created-started-cancelled job satisfies the
invariant. -/
theorem completedAt_iff_terminal_witness :
    (cancelUpdate 20 (startJob 11
        (newJob 2 7 3 mapActive dsReady "json" none 10))).completedAt ≠
      none ↔
      ((cancelUpdate 20 (startJob 11
          (newJob 2 7 3 mapActive dsReady "json" none 10))).status =
        .completed ∨
       (cancelUpdate 20 (startJob 11
          (newJob 2 7 3 mapActive dsReady "json" none 10))).status =
        .failed ∨
       (cancelUpdate 20 (startJob 11
          (newJob 2 7 3 mapActive dsReady "json" none 10))).status =
        .cancelled) :=
  completedAt_iff_terminal _
    (ReachableJob.cancelStep 20
      (ReachableJob.autoStarted 11
        (ReachableJob.created 2 7 3 mapActive dsReady "json" none 10) rfl)
      (Or.inr rfl))

/-- Claim C9: in this snapshot no sequence of the implemented operations
ever reaches status `completed` or `failed`: every reachable job row is
`pending`, `processing` or `cancelled` (the read endpoints perform no
writes; no stage execution is implemented). -/
theorem reachable_status_set (j : Job) (h : ReachableJob j) :
    (j.status = .pending ∨ j.status = .processing ∨
      j.status = .cancelled) ∧
    j.status ≠ .completed ∧ j.status ≠ .failed := by
  induction h with
  | created jobId org proj m ds fmt name t => simp [newJob]
  | autoStarted t hr hp ih => simp [startJob]
  | cancelStep t hr hor ih => simp [cancelUpdate]
  | retryStep t hr hf ih => exact absurd hf ih.2.2

/-- Witness for C9: a concrete created-started job has a status in the
reachable set. -/
theorem reachable_status_set_witness :
    ((startJob 11 (newJob 3 7 3 mapActive dsReady "json" none 10)).status =
        .pending ∨
     (startJob 11 (newJob 3 7 3 mapActive dsReady "json" none 10)).status =
        .processing ∨
     (startJob 11 (newJob 3 7 3 mapActive dsReady "json" none 10)).status =
        .cancelled) ∧
    (startJob 11 (newJob 3 7 3 mapActive dsReady "json" none 10)).status ≠
      .completed ∧
    (startJob 11 (newJob 3 7 3 mapActive dsReady "json" none 10)).status ≠
      .failed :=
  reachable_status_set _
    (ReachableJob.autoStarted 11
      (ReachableJob.created 3 7 3 mapActive dsReady "json" none 10) rfl)

/-- Claim C8 counterexample: for a `processing` job with constant
progress 50 started at time 10, the estimate at wall time 1010 is 1
second but at wall time 2010 it is 2 seconds: the later call's
estimatedTimeRemaining is strictly greater, not less than or equal. -/
theorem eta_monotone_counterexample :
    estimatedTimeRemaining 1010 { jobProcessing with progress := 50 } =
      some 1 ∧
    estimatedTimeRemaining 2010 { jobProcessing with progress := 50 } =
      some 2 ∧
    ¬((2 : ℤ) ≤ 1) := by
  refine ⟨?_, ?_, by decide⟩ <;>
    norm_num [estimatedTimeRemaining, jobProcessing, jsRound]

/-- Claim C8 (amended): for a job held in `processing` with constant
progress (between 1 and 100) and fixed startedAt, two getProgress calls
at wall times t1 ≤ t2 return identical snapshots except
estimatedTimeRemaining, and the later call's estimate is greater than or
equal to the earlier one's: under constant progress the code's estimate
grows with elapsed wall time, it does not shrink. -/
theorem eta_nondecreasing (j : Job) (s t1 t2 : Nat)
    (hs : j.startedAt = some s) (hst : j.status = .processing)
    (hp : 0 < j.progress) (hp100 : j.progress ≤ 100)
    (h1 : s ≤ t1) (h12 : t1 ≤ t2) :
    snapshotSansETA (getProgress t1 j) = snapshotSansETA (getProgress t2 j) ∧
    (∀ e1 e2 : ℤ, estimatedTimeRemaining t1 j = some e1 →
      estimatedTimeRemaining t2 j = some e2 → e1 ≤ e2) := by
  constructor
  · simp [snapshotSansETA, getProgress]
  · intro e1 e2 he1 he2
    simp only [estimatedTimeRemaining, hs, if_pos (And.intro hst hp),
      Option.some_inj] at he1 he2
    subst he1
    subst he2
    have hpq : (0 : ℚ) < (j.progress : ℚ) := by exact_mod_cast hp
    have hc : (0 : ℚ) ≤ 100 / (j.progress : ℚ) - 1 := by
      rw [sub_nonneg, le_div_iff₀ hpq, one_mul]
      exact_mod_cast hp100
    have he : ((t1 : ℚ) - (s : ℚ)) ≤ ((t2 : ℚ) - (s : ℚ)) := by
      have h12q : (t1 : ℚ) ≤ (t2 : ℚ) := by exact_mod_cast h12
      linarith
    have expand : ∀ e : ℚ,
        e / (j.progress : ℚ) * 100 - e = e * (100 / (j.progress : ℚ) - 1) := by
      intro e
      ring
    have key : (((t1 : ℚ) - (s : ℚ)) / (j.progress : ℚ) * 100 -
          ((t1 : ℚ) - (s : ℚ))) ≤
        (((t2 : ℚ) - (s : ℚ)) / (j.progress : ℚ) * 100 -
          ((t2 : ℚ) - (s : ℚ))) := by
      rw [expand, expand]
      exact mul_le_mul_of_nonneg_right he hc
    have key2 :=
      (div_le_div_iff_of_pos_right (show (0 : ℚ) < 1000 by norm_num)).mpr key
    simp only [jsRound]
    exact max_le_max le_rfl (Int.floor_le_floor (add_le_add_right key2 _))

/-- Witness for C8 (amended): the two concrete snapshots at wall times
1010 and 2010 agree on everything except estimatedTimeRemaining. -/
theorem eta_nondecreasing_witness :
    snapshotSansETA (getProgress 1010 { jobProcessing with progress := 50 }) =
      snapshotSansETA (getProgress 2010 { jobProcessing with progress := 50 }) :=
  (eta_nondecreasing { jobProcessing with progress := 50 } 10 1010 2010
    rfl rfl (by decide) (by decide) (by decide) (by decide)).1

/-- A concrete log row of job 1 at time 5. -/
def logA : JobLog :=
  { id := 10, jobId := 1, level := "info", message := "a", details := none,
    createdAt := 5 }

/-- A concrete log row of job 1 at time 9. -/
def logB : JobLog :=
  { id := 11, jobId := 1, level := "info", message := "b", details := none,
    createdAt := 9 }

/-- A concrete log row of another job (id 2) at time 7. -/
def logC : JobLog :=
  { id := 12, jobId := 2, level := "info", message := "c", details := none,
    createdAt := 7 }

/-- Claim C10: GET /jobs/:jobId/logs returns the job's log entries ordered
by createdAt descending, paginated with page defaulting to 1 and the page
size taken from the page_size query parameter, defaulting to 20 and
rejected with BadRequest unless between 1 and 100. -/
theorem logs_endpoint (orgId jobId : Nat) (jobs : List Job)
    (tbl : List JobLog) (j : Job)
    (hfind : jobs.find? (fun x => x.id == jobId) = some j)
    (horg : j.organisationId = orgId) :
    parsePaginationParams none none = .ok (1, 20, 0) ∧
    (∀ (s : String) (v : Int), jsParseInt s = some v →
      (parseQueryInt (some s) "page_size" 20 (some 1) (some 100) = .ok v ↔
        1 ≤ v ∧ v ≤ 100)) ∧
    (∀ (s : String) (v : Int), jsParseInt s = some v →
      ¬(1 ≤ v ∧ v ≤ 100) →
      ∃ msg, parseQueryInt (some s) "page_size" 20 (some 1) (some 100) =
        .error (.badRequest msg)) ∧
    (∀ (page? pageSize? : Option String) (page limit offset : Int),
      parsePaginationParams page? pageSize? = .ok (page, limit, offset) →
      getLogs orgId jobId jobs tbl page? pageSize? = .ok
        (((sortLogsDesc (tbl.filter (fun l => l.jobId = jobId))).drop
          offset.toNat).take limit.toNat)) ∧
    (∀ (page? pageSize? : Option String) (res : List JobLog),
      getLogs orgId jobId jobs tbl page? pageSize? = .ok res →
      List.Sorted logDesc res) := by
  have hreduce : ∀ (page? pageSize? : Option String) (page limit offset : Int),
      parsePaginationParams page? pageSize? = .ok (page, limit, offset) →
      getLogs orgId jobId jobs tbl page? pageSize? = .ok
        (((sortLogsDesc (tbl.filter (fun l => l.jobId = jobId))).drop
          offset.toNat).take limit.toNat) := by
    intro page? pageSize? page limit offset hparse
    simp [getLogs, hparse, hfind, horg, Except.instMonad, Except.bind]
  refine ⟨rfl, ?_, ?_, hreduce, ?_⟩
  · intro s v hv
    simp only [parseQueryInt, hv]
    split_ifs with h1 h2
    · simp only [reduceCtorEq, false_iff]
      omega
    · simp only [reduceCtorEq, false_iff]
      omega
    · simp only [Except.ok.injEq, true_iff]
      omega
  · intro s v hv hout
    simp only [parseQueryInt, hv]
    split_ifs with h1 h2
    · exact ⟨_, rfl⟩
    · exact ⟨_, rfl⟩
    · exact absurd ⟨by omega, by omega⟩ hout
  · intro page? pageSize? res hok
    rcases hparse : parsePaginationParams page? pageSize? with e | triple
    · have herr : getLogs orgId jobId jobs tbl page? pageSize? = .error e := by
        simp [getLogs, hparse, Except.instMonad, Except.bind]
      rw [herr] at hok
      exact absurd hok (by simp)
    · obtain ⟨page, limit, offset⟩ := triple
      rw [hreduce page? pageSize? page limit offset hparse] at hok
      have hsorted : List.Sorted logDesc
          (sortLogsDesc (tbl.filter (fun l => l.jobId = jobId))) :=
        List.sorted_insertionSort logDesc _
      have hsub : (((sortLogsDesc (tbl.filter (fun l => l.jobId = jobId))).drop
          offset.toNat).take limit.toNat).Sublist
          (sortLogsDesc (tbl.filter (fun l => l.jobId = jobId))) :=
        (List.take_sublist _ _).trans (List.drop_sublist _ _)
      injection hok with hok2
      rw [← hok2]
      exact hsorted.sublist hsub

/-- Witness for C10: with default pagination, the logs of job 1 (created
at times 5 and 9, with an unrelated row of job 2 between them) come back
newest first. -/
theorem logs_endpoint_witness :
    getLogs 7 1 [jobProcessing] [logA, logC, logB] none none =
      .ok [logB, logA] := by
  have h := logs_endpoint 7 1 [jobProcessing] [logA, logC, logB]
    jobProcessing (by rfl) rfl
  rw [h.2.2.2.1 none none 1 20 0 h.1]
  rfl
